import Mathlib

/-
  Verification development for the twx-cli X API client.

  Shallow embedding of:
  - src/client/index.ts : XClient.parseResponse, XClient.request,
    XClient.getRateLimitWaitMs
  - the resource methods (createPost, deletePost, me, getUser, getUserPosts,
    searchRecent, like, unlike, retweet, follow, unfollow)
  - src/config.ts : loadCredentials

  JSON values are modelled by the inductive `Json` (numbers as `Int`; the
  claims under verification involve no fractional values).  The platform
  function `JSON.parse` is external to the repository; a response body is
  therefore carried as its raw text together with the parse outcome
  (`Option Json`, `none` = parse failure).  JavaScript truthiness,
  optional chaining (`?.`) and nullish coalescing (`??`) are embedded
  explicitly below.
-/

inductive Json where
  | null : Json
  | bool : Bool → Json
  | num : Int → Json
  | str : String → Json
  | arr : List Json → Json
  | obj : List (String × Json) → Json

/-- First-match field lookup in a JS object literal. -/
def lookupField : List (String × Json) → String → Option Json
  | [], _ => none
  | (k, v) :: rest, key => if k = key then some v else lookupField rest key

/-- JS property access `j[k]`: `none` models `undefined` (absent field or
access on a non-object primitive). -/
def jsGet (j : Json) (k : String) : Option Json :=
  match j with
  | .obj fields => lookupField fields k
  | _ => none

/-- JS optional chaining `x?.k`: short-circuits to `undefined` when `x` is
`undefined` or `null`. -/
def optionalChain (x : Option Json) (k : String) : Option Json :=
  match x with
  | none => none
  | some .null => none
  | some j => jsGet j k

/-- JS nullish coalescing: `some Json.null` and `none` both count as nullish. -/
def jsNonNull (x : Option Json) : Option Json :=
  match x with
  | some .null => none
  | some v => some v
  | none => none

/-- JS `Boolean(v)` for a defined value `v`. -/
def jsTruthy : Json → Bool
  | .null => false
  | .bool b => b
  | .num n => n != 0
  | .str s => s != ""
  | .arr _ => true
  | .obj _ => true

/-- JS `Boolean(x)` where `x` may be `undefined`. -/
def jsBooleanOpt (x : Option Json) : Bool :=
  match x with
  | none => false
  | some v => jsTruthy v

def escapeJsonChar (c : Char) : String :=
  if c = '"' then "\\\"" else if c = '\\' then "\\\\" else String.singleton c

def escapeJsonString (s : String) : String :=
  String.join (s.toList.map escapeJsonChar)

mutual

/-- JS `JSON.stringify` on a defined JSON value. -/
def jsonStringify : Json → String
  | .null => "null"
  | .bool true => "true"
  | .bool false => "false"
  | .num n => toString n
  | .str s => "\"" ++ escapeJsonString s ++ "\""
  | .arr xs => "[" ++ jsonStringifyList xs ++ "]"
  | .obj fs => "\x7b" ++ jsonStringifyFields fs ++ "\x7d"

def jsonStringifyList : List Json → String
  | [] => ""
  | [x] => jsonStringify x
  | x :: xs => jsonStringify x ++ "," ++ jsonStringifyList xs

def jsonStringifyFields : List (String × Json) → String
  | [] => ""
  | [(k, v)] => "\"" ++ escapeJsonString k ++ "\":" ++ jsonStringify v
  | (k, v) :: fs =>
      "\"" ++ escapeJsonString k ++ "\":" ++ jsonStringify v ++ "," ++ jsonStringifyFields fs

end

mutual

/-- JS template-literal conversion of a value to a string. -/
def jsDisplay : Json → String
  | .null => "null"
  | .bool true => "true"
  | .bool false => "false"
  | .num n => toString n
  | .str s => s
  | .arr xs => jsDisplayList xs
  | .obj _ => "[object Object]"

def jsDisplayList : List Json → String
  | [] => ""
  | [.null] => ""
  | [x] => jsDisplay x
  | .null :: xs => "," ++ jsDisplayList xs
  | x :: xs => jsDisplay x ++ "," ++ jsDisplayList xs

end

-- ─── Response Normalizer (XClient.parseResponse, src/client/index.ts:42-60) ───

/-- `Response.ok` of the fetch API: status in [200, 300). -/
def resOk (status : Nat) : Bool := 200 ≤ status && status < 300

/-- Outcome of `XClient.parseResponse`: a returned envelope, or a thrown
`Error` whose message is "X API error " ++ status ++ ": " ++ detail —
modelled structurally as the status together with the detail string. -/
inductive ParseOutcome where
  | success : Json → ParseOutcome
  | apiError : Nat → String → ParseOutcome

/-- `(data as any)?.detail ?? (data as any)?.title ?? JSON.stringify(data)`,
interpolated into the error message. -/
def errorDetailOf (data : Json) : String :=
  match jsNonNull (jsGet data "detail") with
  | some v => jsDisplay v
  | none =>
    match jsNonNull (jsGet data "title") with
    | some v => jsDisplay v
    | none => jsonStringify data

/-- `XClient.parseResponse` (src/client/index.ts:42-60).  `bodyJson` is the
outcome of the external `JSON.parse(text)`: `none` when the body fails to
parse as JSON. -/
def parseResponse (status : Nat) (bodyText : String) (bodyJson : Option Json) : ParseOutcome :=
  match bodyJson with
  | none =>
    if resOk status then ParseOutcome.success (Json.obj [])
    else ParseOutcome.apiError status (bodyText.take 200)
  | some data =>
    if resOk status then ParseOutcome.success data
    else ParseOutcome.apiError status (errorDetailOf data)

-- ─── Rate-limit wait (XClient.getRateLimitWaitMs, src/client/index.ts:91-103) ───

def MAX_RATE_LIMIT_RETRIES : Nat := 2

def DEFAULT_RATE_LIMIT_WAIT_MS : Int := 1000

def digitsValue (ds : List Char) : Nat :=
  ds.foldl (fun acc c => acc * 10 + (c.toNat - '0'.toNat)) 0

/-- JS `Number.parseInt(s, 10)`: skip leading whitespace, optional sign,
longest prefix of decimal digits; `none` models `NaN` (no digits). -/
def parseIntJs (s : String) : Option Int :=
  let cs := s.toList.dropWhile Char.isWhitespace
  let signed : Bool × List Char :=
    match cs with
    | '-' :: r => (true, r)
    | '+' :: r => (false, r)
    | r => (false, r)
  let digits := signed.2.takeWhile Char.isDigit
  if digits.isEmpty then none
  else
    let n : Int := Int.ofNat (digitsValue digits)
    some (if signed.1 then -n else n)

/-- `XClient.getRateLimitWaitMs` (src/client/index.ts:91-103).  `resetHeader`
is `res.headers.get("x-rate-limit-reset")` (`none` = header absent); `nowMs`
is `Date.now()`.  The JS guard `if (!resetHeader)` is also taken for the
empty string. -/
def getRateLimitWaitMs (resetHeader : Option String) (nowMs : Int) : Int :=
  match resetHeader with
  | none => DEFAULT_RATE_LIMIT_WAIT_MS
  | some s =>
    if s = "" then DEFAULT_RATE_LIMIT_WAIT_MS
    else
      match parseIntJs s with
      | none => DEFAULT_RATE_LIMIT_WAIT_MS
      | some parsed =>
        let resetMs : Int := if parsed > 1000000000000 then parsed else parsed * 1000
        max (resetMs - nowMs) 0

-- ─── Rate-limited request executor (XClient.request, src/client/index.ts:63-89) ───

/-- One raw HTTP response as seen by `XClient.request`: status, the
`x-rate-limit-reset` header (`none` = absent), and the body (raw text plus
its `JSON.parse` outcome). -/
structure RawResponse where
  status : Nat
  rateLimitReset : Option String
  bodyText : String
  bodyJson : Option Json

/-- Observable trace of one logical call to `XClient.request`: how many
fetches were performed, the backoff waits (in order), and the final outcome
handed back from `parseResponse`. -/
structure RequestTrace where
  attempts : Nat
  waits : List Int
  outcome : ParseOutcome

/-- `XClient.request` (src/client/index.ts:63-89), with the network as an
oracle: `oracle i` is the response to the fetch performed with
`retryCount = i`, and `nowAt i` is `Date.now()` during that attempt's
backoff computation.  A response is retried exactly when its status is 429
and `retryCount < MAX_RATE_LIMIT_RETRIES`; otherwise it is handed to
`parseResponse`.  The recursion terminates because
`MAX_RATE_LIMIT_RETRIES - retryCount` strictly decreases on every retry. -/
def request (oracle : Nat → RawResponse) (nowAt : Nat → Int) (retryCount : Nat) : RequestTrace :=
  let res := oracle retryCount
  if h : res.status = 429 ∧ retryCount < MAX_RATE_LIMIT_RETRIES then
    let waitMs := getRateLimitWaitMs res.rateLimitReset (nowAt retryCount)
    let t := request oracle nowAt (retryCount + 1)
    { attempts := t.attempts + 1, waits := waitMs :: t.waits, outcome := t.outcome }
  else
    { attempts := 1, waits := [], outcome := parseResponse res.status res.bodyText res.bodyJson }
termination_by MAX_RATE_LIMIT_RETRIES - retryCount
decreasing_by
  have := h.2
  omega

-- ─── Resource methods (src/unnamed/part_000:152-299) ───

/-- `XClient.deletePost`: `Boolean(res.data?.deleted)` applied to the parsed
success envelope. -/
def deletePost (env : Json) : Bool :=
  jsBooleanOpt (optionalChain (jsGet env "data") "deleted")

/-- `XClient.like`: `Boolean(res.data?.liked)`. -/
def like (env : Json) : Bool :=
  jsBooleanOpt (optionalChain (jsGet env "data") "liked")

/-- `XClient.unlike`: `!Boolean(res.data?.liked)`. -/
def unlike (env : Json) : Bool :=
  ! jsBooleanOpt (optionalChain (jsGet env "data") "liked")

/-- `XClient.retweet`: `Boolean(res.data?.retweeted)`. -/
def retweet (env : Json) : Bool :=
  jsBooleanOpt (optionalChain (jsGet env "data") "retweeted")

/-- `XClient.follow`: `Boolean(res.data?.following)`. -/
def follow (env : Json) : Bool :=
  jsBooleanOpt (optionalChain (jsGet env "data") "following")

/-- `XClient.unfollow`: `!Boolean(res.data?.following)`. -/
def unfollow (env : Json) : Bool :=
  ! jsBooleanOpt (optionalChain (jsGet env "data") "following")

/-- `XClient.createPost` response handling: `if (!res.data) throw new
Error("X API returned no post data."); return res.data`. -/
def createPost (env : Json) : Except String Json :=
  if jsBooleanOpt (jsGet env "data") then
    Except.ok ((jsGet env "data").getD Json.null)
  else
    Except.error "X API returned no post data."

/-- `XClient.me` response handling (src/unnamed/part_000:182-191). -/
def me (env : Json) : Except String Json :=
  if jsBooleanOpt (jsGet env "data") then
    Except.ok ((jsGet env "data").getD Json.null)
  else
    Except.error "X API returned no authenticated user data."

/-- `XClient.getUser` response handling (src/unnamed/part_000:194-203). -/
def getUser (username : String) (env : Json) : Except String Json :=
  if jsBooleanOpt (jsGet env "data") then
    Except.ok ((jsGet env "data").getD Json.null)
  else
    Except.error ("X API returned no user data for @" ++ username ++ ".")

/-- Query parameters built by `XClient.getUserPosts`
(src/unnamed/part_000:208-226): `URLSearchParams` preserves insertion order
and `set` appends a key that is not yet present. -/
def getUserPostsParams (maxResults : Int) (paginationToken : Option String) :
    List (String × String) :=
  let clamped := max 5 (min 100 maxResults)
  let params := [("max_results", toString clamped),
                 ("tweet.fields", "created_at,public_metrics,text")]
  match paginationToken with
  | some t => params ++ [("pagination_token", t)]
  | none => params

/-- Query parameters built by `XClient.searchRecent`
(src/unnamed/part_000:231-250). -/
def searchRecentParams (query : String) (maxResults : Int) (paginationToken : Option String) :
    List (String × String) :=
  let clamped := max 10 (min 100 maxResults)
  let params := [("query", query),
                 ("max_results", toString clamped),
                 ("tweet.fields", "created_at,public_metrics,author_id,text")]
  match paginationToken with
  | some t => params ++ [("next_token", t)]
  | none => params

-- ─── Request signer (XClient.request header construction, src/client/index.ts:63-70) ───

/-- Credentials record (src/config.ts:4-10). -/
structure XCredentials where
  apiKey : String
  apiSecret : String
  accessToken : String
  accessTokenSecret : String
  bearerToken : Option String

def isUnreservedByte (b : Nat) : Bool :=
  (65 ≤ b && b ≤ 90) || (97 ≤ b && b ≤ 122) || (48 ≤ b && b ≤ 57) ||
    b = 45 || b = 46 || b = 95 || b = 126

def hexDigitUpper (n : Nat) : Char :=
  if n < 10 then Char.ofNat (48 + n) else Char.ofNat (55 + n)

/-- Modelled from the spec: RFC 3986 percent-encoding used by the OAuth 1.0a
signer (the `oauth-1.0a` library, an external dependency not under src/). -/
def percentEncode (s : String) : String :=
  String.join (s.toUTF8.toList.map (fun b =>
    let n := b.toNat
    if isUnreservedByte n then String.singleton (Char.ofNat n)
    else "%" ++ String.singleton (hexDigitUpper (n / 16)) ++ String.singleton (hexDigitUpper (n % 16))))

/-- Split a URL at the first `?` into the base URL and the query string. -/
def splitUrl (url : String) : String × String :=
  match url.splitOn "?" with
  | [] => (url, "")
  | [base] => (base, "")
  | base :: q :: _ => (base, q)

/-- Parse a query string into key/value pairs. -/
def queryPairs (q : String) : List (String × String) :=
  if q = "" then []
  else (q.splitOn "&").map (fun kv =>
    match kv.splitOn "=" with
    | [] => ("", "")
    | [k] => (k, "")
    | k :: v :: rest => (k, "=".intercalate (v :: rest)))

def pairLe (p q : String × String) : Bool :=
  if p.1 = q.1 then decide (p.2 ≤ q.2) else decide (p.1 < q.1)

def insertSorted (x : String × String) : List (String × String) → List (String × String)
  | [] => [x]
  | y :: ys => if pairLe x y then x :: y :: ys else y :: insertSorted x ys

def sortPairs (l : List (String × String)) : List (String × String) :=
  l.foldr insertSorted []

/-- Modelled from the spec: the OAuth protocol parameters contributed by the
`oauth-1.0a` library for a signed request. -/
def oauthProtocolParams (creds : XCredentials) (nonce timestamp : String) :
    List (String × String) :=
  [("oauth_consumer_key", creds.apiKey),
   ("oauth_nonce", nonce),
   ("oauth_signature_method", "HMAC-SHA1"),
   ("oauth_timestamp", timestamp),
   ("oauth_token", creds.accessToken),
   ("oauth_version", "1.0")]

/-- Modelled from the spec: the canonical signature base string — method,
percent-encoded base URL, and the sorted, percent-encoded parameter string
(URL query parameters plus OAuth protocol parameters), joined with `&`.
The request body is not an input. -/
def signatureBaseString (method url : String) (creds : XCredentials)
    (nonce timestamp : String) : String :=
  let split := splitUrl url
  let params := queryPairs split.2 ++ oauthProtocolParams creds nonce timestamp
  let encoded := params.map (fun p => (percentEncode p.1, percentEncode p.2))
  let sorted := sortPairs encoded
  let paramString := "&".intercalate (sorted.map (fun p => p.1 ++ "=" ++ p.2))
  method ++ "&" ++ percentEncode split.1 ++ "&" ++ percentEncode paramString

/-- Modelled from the spec: the HMAC-SHA1 signing key
`consumerSecret&tokenSecret` (each percent-encoded). -/
def signingKey (creds : XCredentials) : String :=
  percentEncode creds.apiSecret ++ "&" ++ percentEncode creds.accessTokenSecret

/-- Modelled from the spec: `oauth.authorize` followed by `oauth.toHeader` —
the OAuth parameters plus the computed signature, rendered as the value of
the `Authorization` header.  The hash function (HMAC-SHA1 over the base
string and key) is an explicit parameter, mirroring the `hash_function`
passed to the library in the constructor (src/client/index.ts:30-36). -/
def oauthAuthHeader (hash : String → String → String) (method url : String)
    (creds : XCredentials) (nonce timestamp : String) : String :=
  let signature := hash (signatureBaseString method url creds nonce timestamp) (signingKey creds)
  let params := oauthProtocolParams creds nonce timestamp ++ [("oauth_signature", signature)]
  let sorted := sortPairs params
  "OAuth " ++ ", ".intercalate (sorted.map (fun p =>
    percentEncode p.1 ++ "=\"" ++ percentEncode p.2 ++ "\""))

/-- The outgoing fetch call assembled by `XClient.request`
(src/client/index.ts:63-76): `requestData` is `{ url, method }` — the body
is passed to `fetch` but never to `oauth.authorize`. -/
structure FetchCall where
  method : String
  url : String
  headers : List (String × String)
  body : Option String

def buildFetchCall (hash : String → String → String) (method url : String)
    (body : Option Json) (creds : XCredentials) (nonce timestamp : String) : FetchCall :=
  let authHeader := oauthAuthHeader hash method url creds nonce timestamp
  { method := method
    url := url
    headers := [("Authorization", authHeader), ("Content-Type", "application/json")]
    body := body.map jsonStringify }

-- ─── Credential loading (loadCredentials, src/config.ts:16-58) ───

/-- JS falsiness of an environment variable value: `undefined` or `""`. -/
def envIsFalsy (v : Option String) : Bool :=
  match v with
  | none => true
  | some s => s = ""

def setEnv (env : String → Option String) (k v : String) : String → Option String :=
  fun x => if x = k then some v else env x

/-- The config-file merge loop (src/config.ts:29-36): each parsed `KEY=VALUE`
line populates `process.env[KEY]` only when `!process.env[KEY]` (unset or
empty).  Line-level parsing (the comment/assignment regexes) is abstracted:
`lines` is the list of matched (name, value) pairs in file order. -/
def applyConfigLines (env : String → Option String) (lines : List (String × String)) :
    String → Option String :=
  lines.foldl (fun e kv => if envIsFalsy (e kv.1) then setEnv e kv.1 kv.2 else e) env

/-- JS `a ?? b` on environment lookups: only `undefined` falls through
(the empty string does not). -/
def jsOrElse (a b : Option String) : Option String :=
  match a with
  | none => b
  | some s => some s

/-- Result of `loadCredentials`: whether the world-readable warning was
printed, and either the credentials or the thrown error's list of missing
variable names (the message is "Missing credentials: " followed by that
list joined with ", "). -/
structure LoadResult where
  warned : Bool
  result : Except (List String) XCredentials

/-- The process environment after the config-file merge step
(src/config.ts:19-37): unchanged when the file does not exist. -/
def effectiveEnv (env0 : String → Option String)
    (config : Option (Nat × List (String × String))) : String → Option String :=
  match config with
  | some (_, lines) => applyConfigLines env0 lines
  | none => env0

/-- `loadCredentials` (src/config.ts:16-58).  `config` is the config file if
it exists: its stat mode and its parsed `KEY=VALUE` lines.  The warning
fires when `mode & 0o004` is non-zero (src/config.ts:22-25). -/
def loadCredentials (env0 : String → Option String)
    (config : Option (Nat × List (String × String))) : LoadResult :=
  let warned :=
    match config with
    | some (mode, _) => mode &&& 4 != 0
    | none => false
  let env := effectiveEnv env0 config
  let apiKey := jsOrElse (env "X_API_KEY") (env "TWITTER_API_KEY")
  let apiSecret := jsOrElse (env "X_API_SECRET") (env "TWITTER_API_SECRET")
  let accessToken := jsOrElse (env "X_ACCESS_TOKEN") (env "TWITTER_ACCESS_TOKEN")
  let accessTokenSecret :=
    jsOrElse (env "X_ACCESS_TOKEN_SECRET") (env "TWITTER_ACCESS_TOKEN_SECRET")
  let bearerToken := jsOrElse (env "X_BEARER_TOKEN") (env "TWITTER_BEARER_TOKEN")
  let missing :=
    (if envIsFalsy apiKey then ["X_API_KEY"] else []) ++
    (if envIsFalsy apiSecret then ["X_API_SECRET"] else []) ++
    (if envIsFalsy accessToken then ["X_ACCESS_TOKEN"] else []) ++
    (if envIsFalsy accessTokenSecret then ["X_ACCESS_TOKEN_SECRET"] else [])
  { warned := warned
    result :=
      if envIsFalsy apiKey || envIsFalsy apiSecret ||
          envIsFalsy accessToken || envIsFalsy accessTokenSecret then
        Except.error missing
      else
        Except.ok
          { apiKey := apiKey.getD ""
            apiSecret := apiSecret.getD ""
            accessToken := accessToken.getD ""
            accessTokenSecret := accessTokenSecret.getD ""
            bearerToken := bearerToken } }

-- ─── Claim theorems ───

/-- C2: for every 429 response, the backoff wait is 1000 ms when the
`x-rate-limit-reset` header is absent or does not parse as an integer;
otherwise, with parsed value R, the reset instant is R itself when
R > 10^12 (epoch milliseconds) and R*1000 otherwise (epoch seconds), and
the wait is max(resetInstant - now, 0) — in particular never negative. -/
theorem getRateLimitWaitMs_spec (h : Option String) (now : Int) :
    0 ≤ getRateLimitWaitMs h now
    ∧ (h = none → getRateLimitWaitMs h now = 1000)
    ∧ (∀ s, h = some s → parseIntJs s = none → getRateLimitWaitMs h now = 1000)
    ∧ (∀ s R, h = some s → parseIntJs s = some R →
        getRateLimitWaitMs h now
          = max ((if R > 1000000000000 then R else R * 1000) - now) 0) := by
  refine ⟨?_, ?_, ?_, ?_⟩
  · cases h with
    | none => simp [getRateLimitWaitMs, DEFAULT_RATE_LIMIT_WAIT_MS]
    | some s =>
      simp only [getRateLimitWaitMs]
      split_ifs with hs
      · norm_num [DEFAULT_RATE_LIMIT_WAIT_MS]
      · cases hp : parseIntJs s with
        | none => norm_num [DEFAULT_RATE_LIMIT_WAIT_MS]
        | some parsed => exact le_max_right _ 0
  · rintro rfl
    simp [getRateLimitWaitMs, DEFAULT_RATE_LIMIT_WAIT_MS]
  · rintro s rfl hp
    by_cases hs : s = ""
    · simp [getRateLimitWaitMs, hs, DEFAULT_RATE_LIMIT_WAIT_MS]
    · simp [getRateLimitWaitMs, hs, hp, DEFAULT_RATE_LIMIT_WAIT_MS]
  · rintro s R rfl hp
    have hs : s ≠ "" := by
      intro he
      rw [he] at hp
      simp [parseIntJs] at hp
    simp [getRateLimitWaitMs, hs, hp]

/-- C2 witness: header "1700000000" (epoch seconds) at now = 5 ms. -/
theorem getRateLimitWaitMs_spec_witness :
    getRateLimitWaitMs (some "1700000000") 5 = 1699999999995 := by
  have h := (getRateLimitWaitMs_spec (some "1700000000") 5).2.2.2
      "1700000000" 1700000000 rfl (by decide)
  rw [h]
  decide

/-- C3: a response whose body fails to parse as JSON but whose status is a
success (2xx) is normalized to the empty success envelope, never an error. -/
theorem parseResponse_nonjson_success (status : Nat) (bodyText : String)
    (h : resOk status = true) :
    parseResponse status bodyText none = ParseOutcome.success (Json.obj []) := by
  simp [parseResponse, h]

/-- C3 witness: status 204 with a non-JSON body. -/
theorem parseResponse_nonjson_success_witness :
    resOk 204 = true
    ∧ parseResponse 204 "not json" none = ParseOutcome.success (Json.obj []) :=
  ⟨rfl, parseResponse_nonjson_success 204 "not json" rfl⟩

/-- C4: for a non-2xx status the normalizer raises an API error carrying the
numeric status; the detail is the raw text truncated to at most 200
characters when the body is not JSON, and otherwise the body's `detail`
field, else its `title` field, else the full JSON serialization; and an
error is raised if and only if the status is non-2xx. -/
theorem parseResponse_error_spec (status : Nat) (bodyText : String) (bodyJson : Option Json) :
    (resOk status = false →
      parseResponse status bodyText bodyJson =
        ParseOutcome.apiError status
          (match bodyJson with
           | none => bodyText.take 200
           | some data => errorDetailOf data))
    ∧ ((∃ d, parseResponse status bodyText bodyJson = ParseOutcome.apiError status d)
        ↔ resOk status = false)
    ∧ (bodyText.take 200).length ≤ 200 := by
  refine ⟨?_, ⟨?_, ?_⟩, ?_⟩
  · intro h
    cases bodyJson with
    | none => simp [parseResponse, h]
    | some data => simp [parseResponse, h]
  · rintro ⟨d, hd⟩
    cases hok : resOk status with
    | true =>
      cases bodyJson with
      | none => simp [parseResponse, hok] at hd
      | some data => simp [parseResponse, hok] at hd
    | false => rfl
  · intro h
    cases bodyJson with
    | none => exact ⟨bodyText.take 200, by simp [parseResponse, h]⟩
    | some data => exact ⟨errorDetailOf data, by simp [parseResponse, h]⟩
  · rw [String.take_eq]
    exact List.length_take_le 200 bodyText.1

/-- C4 witness: status 404 with a non-JSON body. -/
theorem parseResponse_error_spec_witness :
    parseResponse 404 "oops" none = ParseOutcome.apiError 404 ("oops".take 200) :=
  (parseResponse_error_spec 404 "oops" none).1 rfl

/-- C5: the effective `max_results` query parameter is
clamp(maxResults, 5, 100) for timeline listing and clamp(maxResults, 10, 100)
for recent search, by min/max saturation and without any error; in
particular searchRecent with maxResults 3 sends max_results=10. -/
theorem maxResults_clamped (m : Int) (q : String) (tok : Option String) :
    (getUserPostsParams m tok).lookup "max_results"
        = some (toString (min 100 (max 5 m)))
    ∧ (searchRecentParams q m tok).lookup "max_results"
        = some (toString (min 100 (max 10 m)))
    ∧ (searchRecentParams q 3 none).lookup "max_results" = some "10" := by
  refine ⟨?_, ?_, ?_⟩
  · have hcl : max 5 (min 100 m) = min 100 (max 5 m) := by omega
    cases tok with
    | none => simp [getUserPostsParams, List.lookup, hcl]
    | some t => simp [getUserPostsParams, List.lookup, hcl]
  · have hcl : max 10 (min 100 m) = min 100 (max 10 m) := by omega
    cases tok with
    | none => simp [searchRecentParams, List.lookup, hcl]
    | some t => simp [searchRecentParams, List.lookup, hcl]
  · simp only [searchRecentParams, List.lookup]
    rfl

/-- C6: the boolean-returning resource methods return the value of the named
boolean field of `data` (`deleted`, `liked`, `retweeted`, `following`);
unlike and unfollow return its negation; an absent field is treated as
false before any negation — so deletePost on a data object without a
`deleted` field returns false and unlike on liked=false returns true. -/
theorem boolean_field_methods (env : Json) :
    (∀ b, optionalChain (jsGet env "data") "deleted" = some (Json.bool b) → deletePost env = b)
    ∧ (optionalChain (jsGet env "data") "deleted" = none → deletePost env = false)
    ∧ (∀ b, optionalChain (jsGet env "data") "liked" = some (Json.bool b) → like env = b)
    ∧ (optionalChain (jsGet env "data") "liked" = none → like env = false)
    ∧ (∀ b, optionalChain (jsGet env "data") "liked" = some (Json.bool b) → unlike env = !b)
    ∧ (optionalChain (jsGet env "data") "liked" = none → unlike env = true)
    ∧ (∀ b, optionalChain (jsGet env "data") "retweeted" = some (Json.bool b) → retweet env = b)
    ∧ (∀ b, optionalChain (jsGet env "data") "following" = some (Json.bool b) → follow env = b)
    ∧ (∀ b, optionalChain (jsGet env "data") "following" = some (Json.bool b) → unfollow env = !b)
    ∧ (optionalChain (jsGet env "data") "following" = none → unfollow env = true)
    ∧ deletePost (Json.obj [("data", Json.obj [])]) = false
    ∧ unlike (Json.obj [("data", Json.obj [("liked", Json.bool false)])]) = true := by
  refine ⟨?_, ?_, ?_, ?_, ?_, ?_, ?_, ?_, ?_, ?_, rfl, rfl⟩ <;>
    first
      | (intro b hb
         simp [deletePost, like, unlike, retweet, follow, unfollow, hb,
           jsBooleanOpt, jsTruthy])
      | (intro hb
         simp [deletePost, like, unlike, retweet, follow, unfollow, hb,
           jsBooleanOpt])

/-- C6 witness: deletePost on a deleted=true envelope returns true. -/
theorem boolean_field_methods_witness :
    deletePost (Json.obj [("data", Json.obj [("deleted", Json.bool true)])]) = true :=
  (boolean_field_methods (Json.obj [("data", Json.obj [("deleted", Json.bool true)])])).1
    true rfl

/-- C7: the authorization header is a function of the method, the full URL,
the OAuth protocol parameters (nonce, timestamp) and the immutable secrets
only — two requests differing only in their JSON bodies produce identical
headers, because the body is never an input to the signature computation. -/
theorem signature_ignores_body (hash : String → String → String) (method url : String)
    (creds : XCredentials) (nonce timestamp : String) (b1 b2 : Option Json) :
    (buildFetchCall hash method url b1 creds nonce timestamp).headers
      = (buildFetchCall hash method url b2 creds nonce timestamp).headers
    ∧ (buildFetchCall hash method url b1 creds nonce timestamp).headers
      = [("Authorization", oauthAuthHeader hash method url creds nonce timestamp),
         ("Content-Type", "application/json")] :=
  ⟨rfl, rfl⟩

/-- C10: for a 2xx response whose parsed envelope lacks a `data` field,
createPost, me and getUser each raise an error stating that the API
returned no data instead of returning an empty value. -/
theorem entity_methods_require_data (env : Json) (status : Nat) (bodyText username : String)
    (hok : resOk status = true) (hnodata : jsGet env "data" = none) :
    parseResponse status bodyText (some env) = ParseOutcome.success env
    ∧ createPost env = Except.error "X API returned no post data."
    ∧ me env = Except.error "X API returned no authenticated user data."
    ∧ getUser username env
        = Except.error ("X API returned no user data for @" ++ username ++ ".") := by
  refine ⟨by simp [parseResponse, hok], ?_, ?_, ?_⟩ <;>
    simp [createPost, me, getUser, hnodata, jsBooleanOpt]

/-- C10 witness: a 200 response with envelope lacking `data`. -/
theorem entity_methods_require_data_witness :
    createPost (Json.obj []) = Except.error "X API returned no post data." :=
  (entity_methods_require_data (Json.obj []) 200 "" "alice" rfl rfl).2.1

theorem request_stop (oracle : Nat → RawResponse) (nowAt : Nat → Int) (k : Nat)
    (h : ¬((oracle k).status = 429 ∧ k < MAX_RATE_LIMIT_RETRIES)) :
    request oracle nowAt k =
      { attempts := 1, waits := [],
        outcome := parseResponse (oracle k).status (oracle k).bodyText (oracle k).bodyJson } := by
  rw [request]
  simp only [dif_neg h]

theorem request_retry (oracle : Nat → RawResponse) (nowAt : Nat → Int) (k : Nat)
    (h : (oracle k).status = 429 ∧ k < MAX_RATE_LIMIT_RETRIES) :
    request oracle nowAt k =
      { attempts := (request oracle nowAt (k + 1)).attempts + 1,
        waits := getRateLimitWaitMs (oracle k).rateLimitReset (nowAt k)
                   :: (request oracle nowAt (k + 1)).waits,
        outcome := (request oracle nowAt (k + 1)).outcome } := by
  rw [request]
  simp only [dif_pos h]

/-- C1: a logical call performs at most 3 attempts; a response is retried
only when its status is 429 and the retry counter is strictly below
MAX_RATE_LIMIT_RETRIES = 2; the final response (whatever its status, or a
429 arriving at counter 2) is handed to parseResponse and its outcome is
returned, never retried again. -/
theorem request_retry_bound (oracle : Nat → RawResponse) (nowAt : Nat → Int) :
    1 ≤ (request oracle nowAt 0).attempts
    ∧ (request oracle nowAt 0).attempts ≤ 3
    ∧ (∀ i, i + 1 < (request oracle nowAt 0).attempts →
        (oracle i).status = 429 ∧ i < MAX_RATE_LIMIT_RETRIES)
    ∧ ¬((oracle ((request oracle nowAt 0).attempts - 1)).status = 429
         ∧ (request oracle nowAt 0).attempts - 1 < MAX_RATE_LIMIT_RETRIES)
    ∧ (request oracle nowAt 0).outcome =
        parseResponse (oracle ((request oracle nowAt 0).attempts - 1)).status
          (oracle ((request oracle nowAt 0).attempts - 1)).bodyText
          (oracle ((request oracle nowAt 0).attempts - 1)).bodyJson := by
  by_cases h0 : (oracle 0).status = 429
  · have h0' : (oracle 0).status = 429 ∧ 0 < MAX_RATE_LIMIT_RETRIES := ⟨h0, by decide⟩
    have e0 := request_retry oracle nowAt 0 h0'
    by_cases h1 : (oracle 1).status = 429
    · have h1' : (oracle 1).status = 429 ∧ 1 < MAX_RATE_LIMIT_RETRIES := ⟨h1, by decide⟩
      have e1 := request_retry oracle nowAt 1 h1'
      have h2 : ¬((oracle 2).status = 429 ∧ 2 < MAX_RATE_LIMIT_RETRIES) := by
        rintro ⟨-, hlt⟩
        simp [MAX_RATE_LIMIT_RETRIES] at hlt
      have e2 := request_stop oracle nowAt 2 h2
      rw [e0, e1, e2]
      refine ⟨by simp, by simp, ?_, ?_, by simp⟩
      · intro i hi
        simp at hi
        have hcase : i = 0 ∨ i = 1 := by omega
        rcases hcase with rfl | rfl
        · exact h0'
        · exact h1'
      · simpa using h2
    · have h1' : ¬((oracle 1).status = 429 ∧ 1 < MAX_RATE_LIMIT_RETRIES) := by
        rintro ⟨hc, -⟩
        exact h1 hc
      have e1 := request_stop oracle nowAt 1 h1'
      rw [e0, e1]
      refine ⟨by simp, by simp, ?_, ?_, by simp⟩
      · intro i hi
        simp at hi
        have hcase : i = 0 := by omega
        rw [hcase]
        exact h0'
      · simpa using h1'
  · have h0' : ¬((oracle 0).status = 429 ∧ 0 < MAX_RATE_LIMIT_RETRIES) := by
      rintro ⟨hc, -⟩
      exact h0 hc
    have e0 := request_stop oracle nowAt 0 h0'
    rw [e0]
    refine ⟨by simp, by simp, ?_, ?_, by simp⟩
    · intro i hi
      simp at hi
    · simpa using h0'

/-- Network script used by the C1 witness: one 429, then a 200. -/
def oracleW : Nat → RawResponse :=
  fun i =>
    if i = 0 then { status := 429, rateLimitReset := none, bodyText := "", bodyJson := none }
    else { status := 200, rateLimitReset := none, bodyText := "",
           bodyJson := some (Json.obj []) }

theorem oracleW_attempts : (request oracleW (fun _ => 0) 0).attempts = 2 := by
  have e0 := request_retry oracleW (fun _ => 0) 0 ⟨rfl, by decide⟩
  have e1 := request_stop oracleW (fun _ => 0) 1 (by rintro ⟨hc, -⟩; simp [oracleW] at hc)
  rw [e0, e1]

/-- C1 witness: on the script with a 429 first response, the retried
attempt 0 indeed had status 429 with counter below the maximum. -/
theorem request_retry_bound_witness :
    (oracleW 0).status = 429 ∧ 0 < MAX_RATE_LIMIT_RETRIES := by
  have hlt : 0 + 1 < (request oracleW (fun _ => 0) 0).attempts := by
    rw [oracleW_attempts]
    omega
  exact (request_retry_bound oracleW (fun _ => 0)).2.2.1 0 hlt

/-- A nonempty environment value is never overwritten by later config-file
lines (src/config.ts:33: `if (match && !process.env[match[1]])`). -/
theorem applyConfigLines_preserves (lines : List (String × String)) :
    ∀ (env : String → Option String) (k : String), envIsFalsy (env k) = false →
      applyConfigLines env lines k = env k := by
  induction lines with
  | nil =>
    intro env k hk
    rfl
  | cons kv rest ih =>
    intro env k hk
    simp only [applyConfigLines, List.foldl] at *
    by_cases hkv : envIsFalsy (env kv.1) = true
    · rw [if_pos hkv]
      have hne : k ≠ kv.1 := by
        intro he
        rw [he] at hk
        rw [hk] at hkv
        cases hkv
      have hset : setEnv env kv.1 kv.2 k = env k := by
        simp [setEnv, hne]
      rw [ih (setEnv env kv.1 kv.2) k (by rw [hset]; exact hk), hset]
    · rw [if_neg hkv]
      exact ih env k hk

/-- Spec-side reading of the missing-credential list after the amendment:
a credential is missing when the value selected by the X_-then-TWITTER_
fallback is unset or the empty string. -/
def specMissingVars (env : String → Option String) : List String :=
  (if envIsFalsy (jsOrElse (env "X_API_KEY") (env "TWITTER_API_KEY"))
    then ["X_API_KEY"] else []) ++
  (if envIsFalsy (jsOrElse (env "X_API_SECRET") (env "TWITTER_API_SECRET"))
    then ["X_API_SECRET"] else []) ++
  (if envIsFalsy (jsOrElse (env "X_ACCESS_TOKEN") (env "TWITTER_ACCESS_TOKEN"))
    then ["X_ACCESS_TOKEN"] else []) ++
  (if envIsFalsy (jsOrElse (env "X_ACCESS_TOKEN_SECRET") (env "TWITTER_ACCESS_TOKEN_SECRET"))
    then ["X_ACCESS_TOKEN_SECRET"] else [])

/-- Environment for the C8 counterexample: every credential has at least one
of its two variables set, but X_API_KEY is set to the empty string. -/
def envC8 : String → Option String := fun k =>
  if k = "X_API_KEY" then some ""
  else if k = "TWITTER_API_KEY" then some "tk"
  else if k = "X_API_SECRET" then some "s"
  else if k = "X_ACCESS_TOKEN" then some "t"
  else if k = "X_ACCESS_TOKEN_SECRET" then some "ts"
  else none

/-- C8 counterexample: with X_API_KEY set (to the empty string) and
TWITTER_API_KEY set to a nonempty value — so no credential is absent from
both of its variables — credential loading still fails, naming X_API_KEY.
This refutes the claimed "fails if and only if a credential is absent from
both its X_ and TWITTER_ variable". -/
theorem loadCredentials_claim_cex :
    (loadCredentials envC8 none).result = Except.error ["X_API_KEY"]
    ∧ envC8 "X_API_KEY" = some ""
    ∧ envC8 "TWITTER_API_KEY" = some "tk"
    ∧ envC8 "X_API_SECRET" = some "s"
    ∧ envC8 "X_ACCESS_TOKEN" = some "t"
    ∧ envC8 "X_ACCESS_TOKEN_SECRET" = some "ts" := by
  refine ⟨?_, rfl, rfl, rfl, rfl, rfl⟩
  rfl

/-- C8 (amended): credential loading fails iff, after config-file merging,
at least one of the four mandatory credentials has an effective value
(X_ variable if set, even to the empty string, else the TWITTER_ variable)
that is unset or empty; the raised error names every such credential; and
the config file populates an environment variable only when it is unset or
set to the empty string, so nonempty environment values take priority. -/
theorem loadCredentials_spec (env0 : String → Option String)
    (config : Option (Nat × List (String × String))) :
    ((loadCredentials env0 config).result.isOk = false
        ↔ specMissingVars (effectiveEnv env0 config) ≠ [])
    ∧ (specMissingVars (effectiveEnv env0 config) ≠ [] →
        (loadCredentials env0 config).result
          = Except.error (specMissingVars (effectiveEnv env0 config)))
    ∧ (∀ lines k, envIsFalsy (env0 k) = false →
        applyConfigLines env0 lines k = env0 k) := by
  refine ⟨?_, ?_, fun lines k hk => applyConfigLines_preserves lines env0 k hk⟩ <;>
  · simp only [loadCredentials, specMissingVars]
    cases h1 : envIsFalsy (jsOrElse (effectiveEnv env0 config "X_API_KEY")
        (effectiveEnv env0 config "TWITTER_API_KEY")) <;>
      cases h2 : envIsFalsy (jsOrElse (effectiveEnv env0 config "X_API_SECRET")
        (effectiveEnv env0 config "TWITTER_API_SECRET")) <;>
      cases h3 : envIsFalsy (jsOrElse (effectiveEnv env0 config "X_ACCESS_TOKEN")
        (effectiveEnv env0 config "TWITTER_ACCESS_TOKEN")) <;>
      cases h4 : envIsFalsy (jsOrElse (effectiveEnv env0 config "X_ACCESS_TOKEN_SECRET")
        (effectiveEnv env0 config "TWITTER_ACCESS_TOKEN_SECRET")) <;>
      simp [h1, h2, h3, h4, Except.isOk, Except.toBool]

/-- C8 witness: with an empty environment and no config file, loading fails
naming all four mandatory variables. -/
theorem loadCredentials_spec_witness :
    (loadCredentials (fun _ => none) none).result
      = Except.error ["X_API_KEY", "X_API_SECRET", "X_ACCESS_TOKEN",
                      "X_ACCESS_TOKEN_SECRET"] :=
  (loadCredentials_spec (fun _ => none) none).2.1 (by decide)

/-- A fully-populated environment used by the C9 counterexample. -/
def envOk : String → Option String := fun k =>
  if k = "X_API_KEY" then some "k"
  else if k = "X_API_SECRET" then some "s"
  else if k = "X_ACCESS_TOKEN" then some "t"
  else if k = "X_ACCESS_TOKEN_SECRET" then some "ts"
  else none

/-- C9 counterexample: a config file with mode 0o640 is group-readable
(group read bit 0o040 set) but not world-readable, and loadCredentials
surfaces no warning for it — refuting the claim that every group-readable
or world-readable file produces a warning. -/
theorem config_warning_claim_cex :
    0o640 &&& 0o040 ≠ 0
    ∧ (loadCredentials envOk (some (0o640, []))).warned = false
    ∧ (loadCredentials envOk (some (0o640, []))).result.isOk = true := by
  refine ⟨by decide, rfl, ?_⟩
  rfl

/-- C9 (amended): the warning is surfaced iff the config file's mode has the
world-readable bit 0o004 set; the warning is non-fatal — the loading result
is independent of the mode; and an owner-only file (mode 0o600) produces no
warning. -/
theorem config_warning_spec (env0 : String → Option String) (mode : Nat)
    (lines : List (String × String)) :
    ((loadCredentials env0 (some (mode, lines))).warned = (mode &&& 0o004 != 0))
    ∧ ((loadCredentials env0 (some (mode, lines))).result
        = (loadCredentials env0 (some (0o600, lines))).result)
    ∧ ((loadCredentials env0 (some (0o600, lines))).warned = false) :=
  ⟨rfl, rfl, rfl⟩
